import Mathlib

/-!
Shallow embedding of the ci-bridge core (`src/ci_relay`): the HMAC signature
codec, the GitLab→GitHub status translator, the check-run report assembly
(conclusion, title, log truncation/wrapping), the redundant-pipeline
cancellation scan, the pipeline trigger, and the job-hook callback handler.
Machinery that performs network I/O is modelled by passing the fetched data
(pipeline, job, variables, responses) as explicit inputs and recording the
mutating calls as an effect list; exceptions are modelled by an `Option`
error paired with the effects issued before the abort.
-/

namespace CiRelay

/-- Byte strings (Python `bytes`) as lists of naturals below 256. -/
abbrev Bytes := List Nat

/-- Python `str.encode()` (UTF-8). -/
def strEncode (s : String) : Bytes := s.toUTF8.toList.map (fun b => b.toNat)

/-- `hmac.new(secret, payload, digestmod="sha512").hexdigest()` as an oracle:
a deterministic function from (secret, message) to the hex digest string.
The internals of SHA-512 are outside the bridge's code; the bridge only
relies on the digest being a deterministic function of its two inputs. -/
structure HmacSha512 where
  hexdigest : Bytes → Bytes → String

/-- Python `Union[str, bytes]` payloads accepted by `Signature.create`/`verify`. -/
inductive PyPayload where
  | str (s : String)
  | bytes (b : Bytes)

/-- `if isinstance(payload, str): payload = payload.encode()` in
`Signature.create` and `Signature.verify` (src/ci_relay/signature.py). -/
def PyPayload.toBytes : PyPayload → Bytes
  | .str s => strEncode s
  | .bytes b => b

/-- `hmac.compare_digest(a, b)` on two hex-digest strings: a timing-safe
comparison whose boolean result equals plain string equality. -/
def compare_digest (a b : String) : Bool := a == b

/-- The `Signature` class of src/ci_relay/signature.py: holds the shared secret. -/
structure Signature where
  secret : Bytes

/-- `Signature.create`: HMAC-SHA512 hex digest of the payload under the secret. -/
def Signature.create (H : HmacSha512) (sig : Signature) (payload : PyPayload) : String :=
  H.hexdigest sig.secret payload.toBytes

/-- `Signature.verify`: recompute the digest and compare with `compare_digest`. -/
def Signature.verify (H : HmacSha512) (sig : Signature) (payload : PyPayload)
    (signature : String) : Bool :=
  compare_digest (H.hexdigest sig.secret payload.toBytes) signature

/-- `gitlab_to_github_status` (src/ci_relay/utils.py): translate a GitLab job
status to a GitHub check-run status; unknown statuses raise `ValueError`
(modelled as `Except.error`). -/
def gitlab_to_github_status (gitlab_status : String) : Except String String :=
  if gitlab_status ∈ ["created", "waiting_for_resource", "preparing", "pending",
      "manual", "scheduled"] then
    .ok "queued"
  else if gitlab_status ∈ ["running"] then
    .ok "in_progress"
  else if gitlab_status ∈ ["success", "failed", "canceled", "skipped"] then
    .ok "completed"
  else
    .error ("Unknown status " ++ gitlab_status)

/-! Log formatting and check-run report assembly, from `handle_pipeline_status`
(src/ci_relay/github/utils.py). `textwrap.fill(line, width=150)` is kept as an
oracle parameter `fill`, applied exactly where the source applies it (lines
longer than 150 characters). -/

/-- `github_limit = 65535 - 200  # tolerance` in `handle_pipeline_status`. -/
def github_limit : Nat := 65535 - 200

/-- Python `str.split` at one separator character, on the character list. -/
def splitOnNl : List Char → List (List Char)
  | [] => [[]]
  | c :: cs =>
    if c = '\n' then [] :: splitOnNl cs
    else
      match splitOnNl cs with
      | [] => [[c]]
      | l :: ls => (c :: l) :: ls

/-- `log.split("\n")`. -/
def splitLines (s : String) : List String := (splitOnNl s.data).map String.mk

/-- The truncation loop of `handle_pipeline_status`: walk the reversed lines,
keep a line only while `size + len(line) < github_limit`, accumulating
`size += len(line) + 1`; stop at the first line that does not fit. -/
def selectTail : List String → Nat → List String
  | [], _ => []
  | l :: ls, size =>
    if github_limit ≤ size + l.length then []
    else l :: selectTail ls (size + l.length + 1)

/-- `"\n".join(lines)`. -/
def joinNl : List String → String
  | [] => ""
  | [l] => l
  | l :: ls => l ++ "\n" ++ joinNl ls

/-- The wrap step: `textwrap.fill(line, width=150)` for lines longer than 150
characters, the line itself otherwise. -/
def wrapLine (fill : String → String) (line : String) : String :=
  if 150 < line.length then fill line else line

/-- The lines kept by the truncation loop (in reversed, most-recent-first order). -/
def truncKept (log : String) : List String := selectTail (splitLines log).reverse 0

/-- `f"Showing last {len(selected_lines)} out of {len(lines)} total lines\n\n"`. -/
def truncBanner (log : String) : String :=
  "Showing last " ++ toString (truncKept log).length ++ " out of " ++
    toString (splitLines log).length ++ " total lines" ++ "\n\n"

/-- The complete log-formatting pipeline of `handle_pipeline_status`: truncate
to a suffix of the lines when the log exceeds `github_limit` (prepending the
banner), then wrap long lines and join. -/
def formatLog (fill : String → String) (log : String) : String :=
  if github_limit < log.length then
    truncBanner log ++ joinNl ((truncKept log).reverse.map (wrapLine fill))
  else
    joinNl ((splitLines log).map (wrapLine fill))

/-- Python `str.upper()` (ASCII inputs). -/
def pyUpper (s : String) : String := String.mk (s.data.map Char.toUpper)

/-- Python `str(x)` for an optional string, printing `None` when absent. -/
def optStr : Option String → String
  | none => "None"
  | some s => s

/-- The fields of the GitLab job object read by `handle_pipeline_status`. -/
structure Job where
  status : String
  allow_failure : Bool
  name : String
  id : Nat
  web_url : String
  created_at : String
  started_at : Option String
  finished_at : Option String
deriving DecidableEq

/-- The fields of the GitLab pipeline object read by `handle_pipeline_status`. -/
structure Pipeline where
  id : Nat
  iid : Nat
  web_url : String
  yaml_errors : Option String
deriving DecidableEq

/-- The fields of the GitLab project object read by `handle_pipeline_status`. -/
structure Project where
  id : Nat
  path_with_namespace : String
deriving DecidableEq

/-- The conclusion if-chain of `handle_pipeline_status` (github/utils.py):
success, failed (split on `allow_failure`), canceled, and everything else. -/
def pipelineConclusion (status : String) (allow_failure : Bool) : String :=
  if status == "success" then "success"
  else if status == "failed" then
    if allow_failure then "neutral" else "failure"
  else if status == "canceled" then "cancelled"
  else "neutral"

/-- The check-run title of `handle_pipeline_status`:
`f"GitLab CI: {status.upper()}"`, annotated with `" [allowed failure]"` when
the job failed but was allowed to fail. -/
def pipelineTitle (status : String) (allow_failure : Bool) : String :=
  let t := "GitLab CI: " ++ pyUpper status
  if status == "failed" && allow_failure then t ++ " [allowed failure]" else t

/-- Does `pat` occur at the head of `s` (on character lists)? -/
def charsLead : List Char → List Char → Bool
  | [], _ => true
  | _ :: _, [] => false
  | a :: as, b :: bs => a == b && charsLead as bs

/-- Does `pat` occur anywhere inside `s` (on character lists)? -/
def charsContain (pat : List Char) : List Char → Bool
  | [] => charsLead pat []
  | c :: cs => charsLead pat (c :: cs) || charsContain pat cs

/-- Boolean substring test (`pat in s` in Python). -/
def hasSubstr (s pat : String) : Bool := charsContain pat.data s.data

/-- The check-run summary of `handle_pipeline_status`, including the YAML-error
appendix for failed pipelines. -/
def pipelineSummary (pipeline : Pipeline) (job : Job) (project : Project) : String :=
  let base :=
    "This check triggered job [" ++ project.path_with_namespace ++ "/" ++
      toString job.id ++ "](" ++ job.web_url ++ ")\n" ++
    "in pipeline [" ++ project.path_with_namespace ++ "/" ++
      toString pipeline.iid ++ "](" ++ pipeline.web_url ++ ")\n" ++
    "Status: " ++ pyUpper job.status ++ "\n" ++
    "Created at: " ++ job.created_at ++ "\n" ++
    "Started at: " ++ optStr job.started_at ++ "\n" ++
    "Finished at: " ++ optStr job.finished_at ++ "\n"
  match job.status == "failed", pipeline.yaml_errors with
  | true, some ye => base ++ "\n\nError in YAML:\n" ++ ye
  | _, _ => base

/-- `CheckRunOutput` (github/models.py). -/
structure CheckRunOutput where
  title : String
  summary : String
  text : Option String
deriving DecidableEq

/-- `CheckRunPayload` (github/models.py). -/
structure CheckRunPayload where
  name : String
  status : String
  head_sha : String
  started_at : Option String
  completed_at : Option String
  conclusion : Option String
  details_url : String
  external_id : String
  output : CheckRunOutput
deriving DecidableEq

/-- `GitLab.get_job_url` (gitlab/__init__.py). -/
def get_job_url (api_url : String) (project_id : Nat) (job_id : Nat) : String :=
  api_url ++ "/projects/" ++ toString project_id ++ "/jobs/" ++ toString job_id

/-- Mutating calls issued by the callback path. -/
inductive Effect where
  | postCheckRun (url : String) (payload : CheckRunPayload)
  | triggerWorkflow (repo_slug : String)
deriving DecidableEq

/-- `handle_pipeline_status` (github/utils.py): translate the job status,
derive the conclusion and title, format the fetched log, assemble the
`CheckRunPayload`, and POST it to `{repo_url}/check-runs` unless the sterile
flag is set. The fetched job log (already ANSI-stripped by `get_job_log`) is
passed in as `log`; an unknown job status propagates as the `ValueError`
of `gitlab_to_github_status`. -/
def handle_pipeline_status (fill : String → String) (api_url : String)
    (pipeline : Pipeline) (job : Job) (project : Project)
    (repo_url head_sha : String) (log : String) (sterile : Bool) :
    Except String (CheckRunPayload × List Effect) :=
  match gitlab_to_github_status job.status with
  | .error e => .error e
  | .ok check_status =>
    let conclusion := pipelineConclusion job.status job.allow_failure
    let formatted := formatLog fill log
    let completedNow := job.finished_at.isSome && check_status == "completed"
    let output : CheckRunOutput :=
      { title := pipelineTitle job.status job.allow_failure,
        summary := pipelineSummary pipeline job project,
        text := if completedNow then some ("```\n" ++ formatted ++ "\n```") else none }
    let payload : CheckRunPayload :=
      { name := "CI Bridge / " ++ job.name,
        status := check_status,
        head_sha := head_sha,
        started_at := job.started_at,
        completed_at := if completedNow then job.finished_at else none,
        conclusion := if completedNow then some conclusion else none,
        details_url := job.web_url,
        external_id := get_job_url api_url project.id job.id,
        output := output }
    .ok (payload,
      if sterile then []
      else [Effect.postCheckRun (repo_url ++ "/check-runs") payload])

/-- The byte budget the truncation loop charges for a list of lines: each
line's length plus one for its separator. -/
def lineBudget (ls : List String) : Nat := (ls.map (fun l => l.length + 1)).sum

/-- A log consisting of 69999 newline characters (70000 empty lines), used to
exercise the truncation path. -/
def newlineFlood : String := String.mk (List.replicate 69999 '\n')

/-! The redundant-pipeline cancellation scan, `cancel_pipelines_if_redundant`
(gitlab/__init__.py). The two scoped pipeline listings and the per-pipeline
variable fetches are inputs; the cancel POSTs are recorded as effects, with an
oracle `cancelOk` deciding whether each POST succeeds or raises. -/

/-- Python dict built by inserting key/value pairs in order (a later duplicate
key overwrites an earlier one), then `d[k]`-style lookup: the value of the
last matching pair, or `none` (a `KeyError`) when the key is absent. -/
def dictGet (d : List (String × String)) (k : String) : Option String :=
  (d.reverse.find? (fun p => p.1 == k)).map (fun p => p.2)

/-- One in-flight pipeline as seen by the scan: its id and the key/value
variable pairs returned for it. -/
structure PipelineEntry where
  id : Nat
  vars : List (String × String)
deriving DecidableEq

/-- Mutating calls issued by the scan. -/
inductive ScanEffect where
  | cancel (id : Nat)
deriving DecidableEq

/-- Exceptions that can escape the scan: a `KeyError` on a variables dict, or
an HTTP error raised by a cancel POST. -/
inductive ScanError where
  | keyError (key : String)
  | cancelFailed (id : Nat)
deriving DecidableEq

/-- The inner loop of `cancel_pipelines_if_redundant` over one scope's
candidate pipelines. Mirrors the Python short-circuit condition
`variables["HEAD_REF"] == head_ref and variables["CLONE_URL"] == clone_url`:
`HEAD_REF` is looked up first (raising `KeyError` when absent); `CLONE_URL` is
looked up only when `HEAD_REF` matched. A matching candidate's cancel POST is
skipped when sterile; a failing POST raises, aborting the loop. -/
def scanCandidates (head_ref clone_url : String) (sterile : Bool)
    (cancelOk : Nat → Bool) : List PipelineEntry → List ScanEffect × Option ScanError
  | [] => ([], none)
  | p :: ps =>
    match dictGet p.vars "HEAD_REF" with
    | none => ([], some (.keyError "HEAD_REF"))
    | some hr =>
      if hr == head_ref then
        match dictGet p.vars "CLONE_URL" with
        | none => ([], some (.keyError "CLONE_URL"))
        | some cu =>
          if cu == clone_url then
            if sterile then scanCandidates head_ref clone_url sterile cancelOk ps
            else if cancelOk p.id then
              let r := scanCandidates head_ref clone_url sterile cancelOk ps
              (.cancel p.id :: r.1, r.2)
            else ([.cancel p.id], some (.cancelFailed p.id))
          else scanCandidates head_ref clone_url sterile cancelOk ps
      else scanCandidates head_ref clone_url sterile cancelOk ps

/-- `GitLab.cancel_pipelines_if_redundant`: scan the `running` scope, then the
`pending` scope; an exception in the first scope propagates and the second is
never scanned. -/
def cancel_pipelines_if_redundant (head_ref clone_url : String) (sterile : Bool)
    (cancelOk : Nat → Bool) (pipelinesOf : String → List PipelineEntry) :
    List ScanEffect × Option ScanError :=
  match scanCandidates head_ref clone_url sterile cancelOk (pipelinesOf "running") with
  | (es, some err) => (es, some err)
  | (es, none) =>
    let r := scanCandidates head_ref clone_url sterile cancelOk (pipelinesOf "pending")
    (es ++ r.1, r.2)

/-- A candidate is redundant exactly when its `HEAD_REF` variable equals the
scan's `head_ref` and its `CLONE_URL` variable equals the scan's `clone_url`
(exact string equality). -/
def isRedundant (head_ref clone_url : String) (p : PipelineEntry) : Bool :=
  (dictGet p.vars "HEAD_REF" == some head_ref) &&
    (dictGet p.vars "CLONE_URL" == some clone_url)

/-! The outbound trigger, `GitLab.trigger_pipeline` (gitlab/__init__.py).
The GitHub config-file fetch and the GitLab trigger POST are recorded as
effects; their responses (the `download_url` and the HTTP status plus the
optional `info["message"]["base"]`) are inputs. JSON serialization of the
trigger data is an oracle `dumps`. -/

/-- `PipelineTriggerData` (gitlab/models.py). -/
structure PipelineTriggerData where
  installation_id : Nat
  repo_url : String
  repo_slug : String
  repo_name : String
  head_sha : String
  config_url : String
  clone_url : String
  clone_repo_slug : String
  clone_repo_name : String
  head_ref : String
deriving DecidableEq

/-- Calls `trigger_pipeline` makes against the outside world. -/
inductive TriggerEffect where
  | fetchConfig (url : String)
  | submitPipeline (url token ref : String) (vars : List (String × String))
  | postFailureStatus (repo_url head_sha message : String)
deriving DecidableEq

/-- An HTTP error surfaced by `resp.raise_for_status()`. -/
inductive TriggerError where
  | httpError (status : Nat)
deriving DecidableEq

/-- `GitLab.trigger_pipeline`: in sterile mode return immediately; otherwise
fetch the CI config file at `head_sha`, build and sign the trigger data,
submit the pipeline, and interpret the response (422 posts a failure status
back to GitHub; any other non-success status raises). -/
def trigger_pipeline (dumps : PipelineTriggerData → String) (H : HmacSha512)
    (sterile : Bool) (trigger_url trigger_token : String) (trigger_secret : Bytes)
    (head_sha repo_url repo_slug repo_name : String) (installation_id : Nat)
    (clone_url clone_repo_slug clone_repo_name head_ref : String)
    (configDownloadUrl : String) (respStatus : Nat) (respMessage : Option String) :
    List TriggerEffect × Option TriggerError :=
  if sterile then ([], none)
  else
    let fetch := TriggerEffect.fetchConfig
      (repo_url ++ "/contents/.gitlab-ci.yml?ref=" ++ head_sha)
    let data : PipelineTriggerData :=
      { installation_id := installation_id, repo_url := repo_url,
        repo_slug := repo_slug, repo_name := repo_name, head_sha := head_sha,
        config_url := configDownloadUrl, clone_url := clone_url,
        clone_repo_slug := clone_repo_slug, clone_repo_name := clone_repo_name,
        head_ref := head_ref }
    let payload := dumps data
    let signature := Signature.create H { secret := trigger_secret } (.str payload)
    let submit := TriggerEffect.submitPipeline trigger_url trigger_token "main"
      [("BRIDGE_PAYLOAD", payload), ("TRIGGER_SIGNATURE", signature),
       ("CONFIG_URL", data.config_url), ("CLONE_URL", clone_url),
       ("REPO_SLUG", repo_slug), ("CLONE_REPO_SLUG", clone_repo_slug),
       ("REPO_NAME", repo_name), ("CLONE_REPO_NAME", clone_repo_name),
       ("HEAD_SHA", head_sha), ("HEAD_REF", head_ref)]
    if respStatus == 422 then
      ([fetch, submit,
        .postFailureStatus repo_url head_sha (respMessage.getD "Unknown error")], none)
    else if 400 ≤ respStatus then
      ([fetch, submit], some (.httpError respStatus))
    else
      ([fetch, submit], none)

/-! The inbound callback handler, `on_job_hook` (gitlab/router.py). The four
concurrently fetched objects (pipeline, variables, project, job) are inputs;
`json.loads` of the bridge payload is an oracle; the check-run POST and the
workflow-trigger dispatch are recorded effects. -/

/-- The inbound Job Hook event fields read by `on_job_hook`. -/
structure HookEvent where
  object_kind : String
  project_id : Nat
  pipeline_id : Nat
  build_id : Nat
deriving DecidableEq

/-- The exceptions `on_job_hook` can raise (exceptions.py), plus the dict
`KeyError`s and the propagated `ValueError` of the status translator. -/
inductive HookError where
  | invalidBuild (msg : String)
  | signatureMismatch (msg : String)
  | missingInstallationId (msg : String)
  | statusError (msg : String)
  | keyError (key : String)
deriving DecidableEq

/-- The decoded bridge payload fields `on_job_hook` reads after
`json.loads(bridge_payload)`. -/
structure BridgeDict where
  installation_id : Option Nat
  repo_url : String
  head_sha : String
  repo_slug : String
deriving DecidableEq

/-- `on_job_hook` (gitlab/router.py): reject non-build events, drop ignored
jobs, recover `BRIDGE_PAYLOAD` and `TRIGGER_SIGNATURE` from the pipeline
variables, verify the signature (a mismatch raises `SignatureMismatchError`),
require `installation_id`, report the job status via
`handle_pipeline_status`, and optionally dispatch a GitHub workflow trigger. -/
def on_job_hook (H : HmacSha512) (fill : String → String)
    (jsonLoads : String → BridgeDict) (trigger_secret : Bytes) (api_url : String)
    (sterile : Bool) (shouldIgnore : String → Bool)
    (enableTrig : Bool) (triggerOn : List String)
    (event : HookEvent) (pipeline : Pipeline) (vars : List (String × String))
    (project : Project) (job : Job) (log : String) :
    List Effect × Option HookError :=
  if event.object_kind != "build" then
    ([], some (.invalidBuild ("Object is not a build: " ++ event.object_kind)))
  else if shouldIgnore job.name then ([], none)
  else
    match dictGet vars "BRIDGE_PAYLOAD" with
    | none => ([], some (.keyError "BRIDGE_PAYLOAD"))
    | some bridge_payload =>
      match dictGet vars "TRIGGER_SIGNATURE" with
      | none => ([], some (.keyError "TRIGGER_SIGNATURE"))
      | some signature =>
        if !(Signature.verify H { secret := trigger_secret } (.str bridge_payload)
            signature) then
          ([], some (.signatureMismatch "Signature mismatch"))
        else
          let bp := jsonLoads bridge_payload
          match bp.installation_id with
          | none =>
            ([], some (.missingInstallationId "installation_id missing from bridge payload"))
          | some _ =>
            match handle_pipeline_status fill api_url pipeline job project
                bp.repo_url bp.head_sha log sterile with
            | .error e => ([], some (.statusError e))
            | .ok (_, effs) =>
              if enableTrig && triggerOn.contains job.status then
                (effs ++ [Effect.triggerWorkflow bp.repo_slug], none)
              else
                (effs, none)

/-! The bridge-payload field extraction of `handle_check_suite`
(github/utils.py): required fields via `d[k]` (a `KeyError` when absent),
optional fields via `d.get(k, "")`. -/

/-- The bridge-payload fields recovered by `handle_check_suite`. -/
structure BridgeSuiteFields where
  clone_url : String
  head_sha : String
  head_ref : String
  clone_repo_slug : String
  clone_repo_name : String
deriving DecidableEq

/-- Field access of the decoded bridge payload in `handle_check_suite`:
`clone_url` and `head_sha` are required (`KeyError` when missing), while
`head_ref`, `clone_repo_slug` and `clone_repo_name` default to the empty
string for payloads written by an earlier protocol version. -/
def decode_bridge_payload (d : List (String × String)) :
    Except String BridgeSuiteFields :=
  match dictGet d "clone_url" with
  | none => .error "clone_url"
  | some cu =>
    match dictGet d "head_sha" with
    | none => .error "head_sha"
    | some hs =>
      .ok { clone_url := cu, head_sha := hs,
            head_ref := (dictGet d "head_ref").getD "",
            clone_repo_slug := (dictGet d "clone_repo_slug").getD "",
            clone_repo_name := (dictGet d "clone_repo_name").getD "" }

end CiRelay

namespace CiRelay

/-- C2: signing a payload (str or bytes) under a secret and verifying the same
payload against the produced signature under the same secret yields `true`,
for every HMAC digest function; and `verify` is a total boolean function that
returns `false` exactly when the recomputed digest differs from the presented
signature (it never raises). -/
theorem C2_sign_verify_roundtrip :
    (∀ (H : HmacSha512) (k : Signature) (p : PyPayload),
      Signature.verify H k p (Signature.create H k p) = true) ∧
    (∀ (H : HmacSha512) (k : Signature) (p : PyPayload) (s : String),
      Signature.verify H k p s = false ↔ H.hexdigest k.secret p.toBytes ≠ s) := by
  constructor
  · intro H k p
    simp [Signature.verify, Signature.create, compare_digest]
  · intro H k p s
    simp [Signature.verify, compare_digest]

/-- The eleven documented GitLab job statuses. -/
def documentedStatuses : List String :=
  ["created", "waiting_for_resource", "preparing", "pending", "manual", "scheduled",
   "running", "success", "failed", "canceled", "skipped"]

/-- C3: the status translation is total over the eleven documented statuses with
the documented images (`queued`, `in_progress`, `completed`), and every string
outside the eleven is mapped to a `ValueError` rather than a status. -/
theorem C3_status_translation_total :
    (gitlab_to_github_status "created" = .ok "queued" ∧
     gitlab_to_github_status "waiting_for_resource" = .ok "queued" ∧
     gitlab_to_github_status "preparing" = .ok "queued" ∧
     gitlab_to_github_status "pending" = .ok "queued" ∧
     gitlab_to_github_status "manual" = .ok "queued" ∧
     gitlab_to_github_status "scheduled" = .ok "queued" ∧
     gitlab_to_github_status "running" = .ok "in_progress" ∧
     gitlab_to_github_status "success" = .ok "completed" ∧
     gitlab_to_github_status "failed" = .ok "completed" ∧
     gitlab_to_github_status "canceled" = .ok "completed" ∧
     gitlab_to_github_status "skipped" = .ok "completed") ∧
    (∀ s : String, s ∉ documentedStatuses →
      gitlab_to_github_status s = .error ("Unknown status " ++ s)) := by
  refine ⟨by repeat (first | constructor | rfl), ?_⟩
  intro s hs
  simp only [documentedStatuses, List.mem_cons, List.not_mem_nil, or_false] at hs
  push_neg at hs
  obtain ⟨h1, h2, h3, h4, h5, h6, h7, h8, h9, h10, h11⟩ := hs
  simp [gitlab_to_github_status, h1, h2, h3, h4, h5, h6, h7, h8, h9, h10, h11]

/-- Witness for C3: the undocumented status string `"bogus"` is outside the
documented list and is translated to the `ValueError` message. -/
theorem C3_status_translation_total_witness :
    "bogus" ∉ documentedStatuses ∧
      gitlab_to_github_status "bogus" = .error ("Unknown status " ++ "bogus") :=
  ⟨by decide, C3_status_translation_total.2 "bogus" (by decide)⟩

/-- C4: for completed job reports the conclusion is derived from
(status, allow_failure) exactly as documented — success → success,
failed/allowed → neutral, failed/not-allowed → failure, canceled → cancelled,
skipped → neutral — and the report title contains "[allowed failure]" exactly
when the status is failed and the failure was allowed. -/
theorem C4_conclusion_and_title :
    (∀ af, pipelineConclusion "success" af = "success") ∧
    (pipelineConclusion "failed" true = "neutral") ∧
    (pipelineConclusion "failed" false = "failure") ∧
    (∀ af, pipelineConclusion "canceled" af = "cancelled") ∧
    (∀ af, pipelineConclusion "skipped" af = "neutral") ∧
    (∀ s, s ∈ ["success", "failed", "canceled", "skipped"] → ∀ af,
      hasSubstr (pipelineTitle s af) "[allowed failure]" = (s == "failed" && af)) := by
  decide

/-- Witness for C4: the title of a failed-but-allowed job carries the
"[allowed failure]" annotation. -/
theorem C4_conclusion_and_title_witness :
    hasSubstr (pipelineTitle "failed" true) "[allowed failure]"
      = ("failed" == "failed" && true) :=
  C4_conclusion_and_title.2.2.2.2.2 "failed" (by decide) true

theorem length_mk (l : List Char) : (String.mk l).length = l.length := rfl

theorem string_length_append (a b : String) : (a ++ b).length = a.length + b.length :=
  String.length_append a b

/-- The truncation loop never lets the accumulated budget exceed the limit. -/
theorem selectTail_budget (ls : List String) :
    ∀ size : Nat, size ≤ github_limit →
      size + lineBudget (selectTail ls size) ≤ github_limit := by
  induction ls with
  | nil => intro size h; simpa [selectTail, lineBudget] using h
  | cons l ls ih =>
    intro size h
    by_cases hc : github_limit ≤ size + l.length
    · simpa [selectTail, hc, lineBudget] using h
    · have hlt : size + l.length < github_limit := Nat.lt_of_not_le hc
      have hrec := ih (size + l.length + 1) hlt
      simp only [selectTail, hc, if_false, lineBudget, List.map_cons, List.sum_cons]
      simp only [lineBudget] at hrec
      omega

/-- A line kept by the truncation loop comes from the scanned list. -/
theorem mem_selectTail {l : String} (ls : List String) :
    ∀ size : Nat, l ∈ selectTail ls size → l ∈ ls := by
  induction ls with
  | nil => intro size h; simp [selectTail] at h
  | cons x xs ih =>
    intro size h
    simp only [selectTail] at h
    split at h
    · simp at h
    · rcases List.mem_cons.mp h with h1 | h2
      · exact List.mem_cons.mpr (Or.inl h1)
      · exact List.mem_cons.mpr (Or.inr (ih _ h2))

/-- Lines that already fit the wrap width pass the wrap step unchanged. -/
theorem map_wrapLine_eq_self (fill : String → String) (ls : List String)
    (h : ∀ l ∈ ls, l.length ≤ 150) : ls.map (wrapLine fill) = ls := by
  induction ls with
  | nil => rfl
  | cons x xs ih =>
    have hx : ¬ (150 < x.length) := Nat.not_lt.mpr (h x (List.mem_cons_self x xs))
    simp only [List.map_cons, wrapLine, hx, if_false]
    rw [ih (fun l hl => h l (List.mem_cons.mpr (Or.inr hl)))]

/-- Joining n lines with newlines costs exactly the line budget minus one. -/
theorem joinNl_length_budget (ls : List String) (h : ls ≠ []) :
    (joinNl ls).length + 1 = lineBudget ls := by
  induction ls with
  | nil => exact absurd rfl h
  | cons l ls ih =>
    cases ls with
    | nil => simp [joinNl, lineBudget]
    | cons x xs =>
      have := ih (by simp)
      simp only [joinNl, lineBudget, List.map_cons, List.sum_cons,
        string_length_append] at this ⊢
      have h1 : ("\n" : String).length = 1 := rfl
      omega

theorem lineBudget_reverse (ls : List String) : lineBudget ls.reverse = lineBudget ls := by
  simp [lineBudget, List.map_reverse, List.sum_reverse]

theorem splitOnNl_ne_nil (cs : List Char) : splitOnNl cs ≠ [] := by
  cases cs with
  | nil => simp [splitOnNl]
  | cons c cs =>
    simp only [splitOnNl]
    split
    · simp
    · split <;> simp

/-- Splitting a string into lines accounts for every character plus one:
the line budget of the split equals the string length plus one. -/
theorem splitBudget (cs : List Char) :
    lineBudget ((splitOnNl cs).map String.mk) = cs.length + 1 := by
  induction cs with
  | nil => simp [splitOnNl, lineBudget, length_mk]
  | cons c cs ih =>
    by_cases hc : c = '\n'
    · simp only [splitOnNl, hc, if_true, List.map_cons, lineBudget, List.sum_cons,
        length_mk, List.length_nil, List.length_cons]
      simp only [lineBudget] at ih
      omega
    · cases hsp : splitOnNl cs with
      | nil => exact absurd hsp (splitOnNl_ne_nil cs)
      | cons p ps =>
        rw [hsp] at ih
        simp only [splitOnNl, hc, if_false, hsp, List.map_cons, lineBudget,
          List.sum_cons, length_mk, List.length_cons] at ih ⊢
        omega

theorem splitLines_ne_nil (s : String) : splitLines s ≠ [] := by
  simp [splitLines, splitOnNl_ne_nil]

/-- The banner's length is 35 plus the printed digit counts of the two counts. -/
theorem truncBanner_length (log : String) :
    (truncBanner log).length =
      35 + (toString (truncKept log).length).length
         + (toString (splitLines log).length).length := by
  simp only [truncBanner, string_length_append]
  have h1 : ("Showing last " : String).length = 13 := rfl
  have h2 : (" out of " : String).length = 8 := rfl
  have h3 : (" total lines" : String).length = 12 := rfl
  have h4 : ("\n\n" : String).length = 2 := rfl
  omega

theorem splitOnNl_replicate (k : Nat) :
    splitOnNl (List.replicate k '\n') = List.replicate (k + 1) [] := by
  induction k with
  | zero => rfl
  | succ k ih =>
    rw [List.replicate_succ]
    have hstep : splitOnNl ('\n' :: List.replicate k '\n')
        = [] :: splitOnNl (List.replicate k '\n') := by
      simp [splitOnNl]
    rw [hstep, ih, ← List.replicate_succ]

theorem selectTail_replicate (k : Nat) :
    ∀ size : Nat, selectTail (List.replicate k "") size
      = List.replicate (min k (github_limit - size)) "" := by
  induction k with
  | zero => intro size; simp [selectTail]
  | succ k ih =>
    intro size
    rw [List.replicate_succ]
    simp only [selectTail, String.length_empty, Nat.add_zero]
    by_cases hc : github_limit ≤ size
    · rw [if_pos hc]
      have h0 : github_limit - size = 0 := Nat.sub_eq_zero_of_le hc
      rw [h0, Nat.min_zero]
      rfl
    · rw [if_neg hc, ih (size + 1)]
      have hsub : github_limit - size = (github_limit - (size + 1)) + 1 := by omega
      rw [hsub, Nat.succ_min_succ, List.replicate_succ]

theorem joinNl_replicate (k : Nat) :
    (joinNl (List.replicate (k + 1) "")).length = k := by
  induction k with
  | zero => rfl
  | succ k ih =>
    rw [List.replicate_succ, List.replicate_succ]
    simp only [joinNl]
    rw [← List.replicate_succ, string_length_append, string_length_append, ih]
    have h1 : ("" : String).length = 0 := rfl
    have h2 : ("\n" : String).length = 1 := rfl
    omega

/-- C8 counterexample: a log of 69999 newline characters is truncated to 65335
empty lines whose joined body is 65334 characters, and the banner pushes the
total to 65379 characters — above the 65335 ceiling. This refutes the claim
that the formatted log always fits the ceiling banner included (the wrap
oracle is irrelevant here: no kept line exceeds the wrap width). -/
theorem C8_ceiling_counterexample :
    github_limit < (formatLog (fun s => s) newlineFlood).length := by
  have hdata : newlineFlood.data = List.replicate 69999 '\n' := rfl
  have hsplit : splitLines newlineFlood = List.replicate 70000 "" := by
    rw [splitLines, hdata, splitOnNl_replicate, List.map_replicate]
  have hkept : truncKept newlineFlood = List.replicate 65335 "" := by
    rw [truncKept, hsplit, List.reverse_replicate, selectTail_replicate]
    norm_num [github_limit, String.length_empty]
  have hcond : github_limit < newlineFlood.length := by
    have : newlineFlood.length = 69999 := by
      rw [newlineFlood, length_mk, List.length_replicate]
    rw [this]; norm_num [github_limit]
  rw [formatLog, if_pos hcond, string_length_append]
  have hwrap : ((truncKept newlineFlood).reverse).map (wrapLine (fun s => s))
      = List.replicate 65335 "" := by
    rw [hkept, List.reverse_replicate, List.map_replicate]
    rfl
  rw [hwrap]
  have hjoin : (joinNl (List.replicate 65335 "")).length = 65334 := joinNl_replicate 65334
  have hban : (truncBanner newlineFlood).length = 45 := by
    rw [truncBanner, hkept, hsplit, List.length_replicate, List.length_replicate]
    rfl
  rw [hjoin, hban]
  norm_num [github_limit]

/-- C8 amended: for every raw log whose individual lines fit the 150-character
wrap width (so the wrap step is the identity and the oracle for
`textwrap.fill` is never consulted), the formatted output is at most the
truncation banner's length plus (ceiling − 1): the kept body always fits in
ceiling − 1 characters, but the banner is prepended after the budget check,
so the total may overrun the ceiling by the banner's length. -/
theorem C8_ceiling_amended (fill : String → String) (log : String)
    (h : ∀ l ∈ splitLines log, l.length ≤ 150) :
    (formatLog fill log).length ≤ (truncBanner log).length + (github_limit - 1) := by
  rw [formatLog]
  by_cases hlen : github_limit < log.length
  · rw [if_pos hlen, string_length_append]
    have hwrap : ((truncKept log).reverse).map (wrapLine fill) = (truncKept log).reverse := by
      apply map_wrapLine_eq_self
      intro l hl
      exact h l (List.mem_reverse.mp (mem_selectTail _ _ (List.mem_reverse.mp hl)))
    rw [hwrap]
    cases hk : (truncKept log).reverse with
    | nil =>
      have hj : (joinNl ([] : List String)).length = 0 := rfl
      rw [hj]
      omega
    | cons a as =>
      have hj := joinNl_length_budget ((truncKept log).reverse) (by rw [hk]; simp)
      have hb : lineBudget ((truncKept log).reverse) = lineBudget (truncKept log) :=
        lineBudget_reverse _
      have hbound : lineBudget (truncKept log) ≤ github_limit := by
        simpa [truncKept] using selectTail_budget (splitLines log).reverse 0 (Nat.zero_le _)
      rw [hk] at hj hb
      omega
  · rw [if_neg hlen]
    have hwrap : (splitLines log).map (wrapLine fill) = splitLines log :=
      map_wrapLine_eq_self fill _ h
    rw [hwrap]
    have hsl : lineBudget (splitLines log) = log.length + 1 := splitBudget log.data
    have hj := joinNl_length_budget _ (splitLines_ne_nil log)
    have hbl := truncBanner_length log
    have hlen' : log.length ≤ github_limit := Nat.not_lt.mp hlen
    omega

/-- Witness for C8 amended: a two-line log whose lines fit the wrap width. -/
theorem C8_ceiling_amended_witness :
    (∀ l ∈ splitLines "abc\ndef", l.length ≤ 150) ∧
      (formatLog (fun s => s) "abc\ndef").length ≤
        (truncBanner "abc\ndef").length + (github_limit - 1) :=
  ⟨by decide, C8_ceiling_amended (fun s => s) "abc\ndef" (by decide)⟩

/-- With both keys present in every candidate's variables dict and every
issued cancel POST succeeding, the non-sterile scan of one scope cancels
exactly the redundant candidates, in listing order. -/
theorem scanCandidates_filter (head_ref clone_url : String) (cancelOk : Nat → Bool)
    (ps : List PipelineEntry)
    (hkeys : ∀ p ∈ ps, (dictGet p.vars "HEAD_REF").isSome ∧
      (dictGet p.vars "CLONE_URL").isSome)
    (hok : ∀ p ∈ ps, isRedundant head_ref clone_url p = true → cancelOk p.id = true) :
    scanCandidates head_ref clone_url false cancelOk ps
      = ((ps.filter (isRedundant head_ref clone_url)).map
          (fun p => ScanEffect.cancel p.id), none) := by
  induction ps with
  | nil => rfl
  | cons p ps ih =>
    obtain ⟨hh, hc⟩ := hkeys p (List.mem_cons_self p ps)
    obtain ⟨hr, hhr⟩ := Option.isSome_iff_exists.mp hh
    obtain ⟨cu, hcu⟩ := Option.isSome_iff_exists.mp hc
    have ihs := ih (fun q hq => hkeys q (List.mem_cons.mpr (Or.inr hq)))
      (fun q hq => hok q (List.mem_cons.mpr (Or.inr hq)))
    by_cases h1 : hr = head_ref
    · by_cases h2 : cu = clone_url
      · have hred : isRedundant head_ref clone_url p = true := by
          simp [isRedundant, hhr, hcu, h1, h2]
        have hcancel := hok p (List.mem_cons_self p ps) hred
        simp [scanCandidates, hhr, hcu, h1, h2, hcancel, ihs, hred]
      · have hred : isRedundant head_ref clone_url p = false := by
          simp [isRedundant, hhr, hcu, h2]
        simp [scanCandidates, hhr, hcu, h1, h2, ihs, hred]
    · have hred : isRedundant head_ref clone_url p = false := by
        simp [isRedundant, hhr, h1]
      simp [scanCandidates, hhr, h1, ihs, hred]

/-- C5: a non-sterile redundancy scan over the running and pending scopes
cancels a candidate pipeline exactly when its HEAD_REF variable equals the
scan's head_ref and its CLONE_URL variable equals the scan's clone_url, under
exact string equality: the issued cancel effects are precisely the redundant
candidates of both scopes, in order, and no error is raised (assuming every
candidate carries both variables and every cancel POST succeeds). -/
theorem C5_redundant_cancel (head_ref clone_url : String) (cancelOk : Nat → Bool)
    (pipelinesOf : String → List PipelineEntry)
    (hkeys : ∀ p ∈ pipelinesOf "running" ++ pipelinesOf "pending",
      (dictGet p.vars "HEAD_REF").isSome ∧ (dictGet p.vars "CLONE_URL").isSome)
    (hok : ∀ n, cancelOk n = true) :
    cancel_pipelines_if_redundant head_ref clone_url false cancelOk pipelinesOf
      = (((pipelinesOf "running" ++ pipelinesOf "pending").filter
            (isRedundant head_ref clone_url)).map
          (fun p => ScanEffect.cancel p.id), none) := by
  have h1 := scanCandidates_filter head_ref clone_url cancelOk (pipelinesOf "running")
    (fun p hp => hkeys p (List.mem_append_left _ hp)) (fun p _ _ => hok p.id)
  have h2 := scanCandidates_filter head_ref clone_url cancelOk (pipelinesOf "pending")
    (fun p hp => hkeys p (List.mem_append_right _ hp)) (fun p _ _ => hok p.id)
  simp [cancel_pipelines_if_redundant, h1, h2, List.filter_append, List.map_append]

/-- Witness for C5: two matching candidates (one per scope) are cancelled, the
mismatching one is untouched. -/
theorem C5_redundant_cancel_witness :
    cancel_pipelines_if_redundant "main" "u" false (fun _ => true)
        (fun scope => if scope == "running" then
          [⟨1, [("HEAD_REF", "main"), ("CLONE_URL", "u")]⟩,
           ⟨2, [("HEAD_REF", "main"), ("CLONE_URL", "w")]⟩]
        else [⟨3, [("HEAD_REF", "main"), ("CLONE_URL", "u")]⟩])
      = ([ScanEffect.cancel 1, ScanEffect.cancel 3], none) := by
  rw [C5_redundant_cancel "main" "u" (fun _ => true) _ (by decide) (fun _ => rfl)]
  decide

/-- C6 counterexample: two redundant candidates in the running scope; the
cancel POST for the first raises, and the scan aborts — the second redundant
candidate is never cancelled, refuting the claim that a cancel failure does
not abort the scan. -/
theorem C6_counterexample :
    (cancel_pipelines_if_redundant "main" "u" false (fun n => !(n == 1))
        (fun scope => if scope == "running" then
          [⟨1, [("HEAD_REF", "main"), ("CLONE_URL", "u")]⟩,
           ⟨2, [("HEAD_REF", "main"), ("CLONE_URL", "u")]⟩]
        else [])
      = ([ScanEffect.cancel 1], some (.cancelFailed 1))) ∧
    ScanEffect.cancel 2 ∉ (cancel_pipelines_if_redundant "main" "u" false
        (fun n => !(n == 1))
        (fun scope => if scope == "running" then
          [⟨1, [("HEAD_REF", "main"), ("CLONE_URL", "u")]⟩,
           ⟨2, [("HEAD_REF", "main"), ("CLONE_URL", "u")]⟩]
        else [])).1 := by
  decide

/-- C6 amended: a failing cancel POST for a redundant match raises and aborts
the scan: the issued effects stop at that match's own cancel call, the error
propagates, and no later candidate of the current scope — nor the entire
pending scope — is examined or cancelled. -/
theorem C6_cancel_failure_aborts (head_ref clone_url : String) (cancelOk : Nat → Bool)
    (p : PipelineEntry) (rest : List PipelineEntry)
    (hh : dictGet p.vars "HEAD_REF" = some head_ref)
    (hc : dictGet p.vars "CLONE_URL" = some clone_url)
    (hf : cancelOk p.id = false) :
    (scanCandidates head_ref clone_url false cancelOk (p :: rest)
        = ([ScanEffect.cancel p.id], some (.cancelFailed p.id))) ∧
    ∀ pipelinesOf : String → List PipelineEntry, pipelinesOf "running" = p :: rest →
      cancel_pipelines_if_redundant head_ref clone_url false cancelOk pipelinesOf
        = ([ScanEffect.cancel p.id], some (.cancelFailed p.id)) := by
  have hmain : scanCandidates head_ref clone_url false cancelOk (p :: rest)
      = ([ScanEffect.cancel p.id], some (.cancelFailed p.id)) := by
    simp [scanCandidates, hh, hc, hf]
  refine ⟨hmain, ?_⟩
  intro pipelinesOf hpo
  simp [cancel_pipelines_if_redundant, hpo, hmain]

/-- Witness for C6 amended: a concrete failing cancel aborts the scan. -/
theorem C6_cancel_failure_aborts_witness :
    scanCandidates "main" "u" false (fun n => !(n == 1))
        [⟨1, [("HEAD_REF", "main"), ("CLONE_URL", "u")]⟩,
         ⟨2, [("HEAD_REF", "main"), ("CLONE_URL", "u")]⟩]
      = ([ScanEffect.cancel 1], some (.cancelFailed 1)) :=
  (C6_cancel_failure_aborts "main" "u" (fun n => !(n == 1))
    ⟨1, [("HEAD_REF", "main"), ("CLONE_URL", "u")]⟩
    [⟨2, [("HEAD_REF", "main"), ("CLONE_URL", "u")]⟩]
    (by decide) (by decide) (by decide)).1

/-- C10 counterexample: the first candidate lacks CLONE_URL but its HEAD_REF
does not match, so Python's short-circuit `and` never looks CLONE_URL up: no
KeyError is raised and the later matching candidate is still examined and
cancelled, refuting the claim that a candidate lacking either key aborts the
scan. -/
theorem C10_counterexample :
    scanCandidates "main" "u" false (fun _ => true)
        [⟨1, [("HEAD_REF", "other")]⟩,
         ⟨2, [("HEAD_REF", "main"), ("CLONE_URL", "u")]⟩]
      = ([ScanEffect.cancel 2], none) := by
  decide

/-- C10 amended: the scan raises a KeyError when a candidate lacks HEAD_REF,
or lacks CLONE_URL while its HEAD_REF equals the scan's head_ref; in either
case nothing is cancelled for that or any later candidate and the error
propagates through the scope loop, so the pending scope is never scanned. A
candidate lacking CLONE_URL whose HEAD_REF differs from head_ref is, however,
skipped without error by the short-circuit conjunction. -/
theorem C10_missing_key_behavior (head_ref clone_url : String) (sterile : Bool)
    (cancelOk : Nat → Bool) (p : PipelineEntry) (rest : List PipelineEntry) :
    (dictGet p.vars "HEAD_REF" = none →
      scanCandidates head_ref clone_url sterile cancelOk (p :: rest)
        = ([], some (.keyError "HEAD_REF"))) ∧
    (dictGet p.vars "HEAD_REF" = some head_ref →
      dictGet p.vars "CLONE_URL" = none →
      scanCandidates head_ref clone_url sterile cancelOk (p :: rest)
        = ([], some (.keyError "CLONE_URL"))) ∧
    (∀ v, dictGet p.vars "HEAD_REF" = some v → (v == head_ref) = false →
      scanCandidates head_ref clone_url sterile cancelOk (p :: rest)
        = scanCandidates head_ref clone_url sterile cancelOk rest) ∧
    (∀ (pipelinesOf : String → List PipelineEntry) (k : String),
      pipelinesOf "running" = p :: rest →
      scanCandidates head_ref clone_url sterile cancelOk (p :: rest)
        = ([], some (.keyError k)) →
      cancel_pipelines_if_redundant head_ref clone_url sterile cancelOk pipelinesOf
        = ([], some (.keyError k))) := by
  refine ⟨?_, ?_, ?_, ?_⟩
  · intro hh
    simp [scanCandidates, hh]
  · intro hh hc
    simp [scanCandidates, hh, hc]
  · intro v hv hne
    simp [scanCandidates, hv, hne]
  · intro pipelinesOf k hpo hsc
    simp [cancel_pipelines_if_redundant, hpo, hsc]

/-- Witness for C10 amended: a candidate with no variables at all raises the
HEAD_REF KeyError and nothing is cancelled. -/
theorem C10_missing_key_behavior_witness :
    scanCandidates "main" "u" false (fun _ => true)
        [⟨1, []⟩, ⟨2, [("HEAD_REF", "main"), ("CLONE_URL", "u")]⟩]
      = ([], some (.keyError "HEAD_REF")) :=
  (C10_missing_key_behavior "main" "u" false (fun _ => true) ⟨1, []⟩
    [⟨2, [("HEAD_REF", "main"), ("CLONE_URL", "u")]⟩]).1 (by decide)

/-- C7 counterexample: with the dry-run (sterile) flag set, `trigger_pipeline`
returns immediately — no effect at all is issued, in particular the
pipeline-definition fetch from Host A does not happen, refuting the claim that
dry-run still fetches the CI config file. -/
theorem C7_counterexample :
    (trigger_pipeline (fun _ => "payload") ⟨fun _ _ => "digest"⟩ true
        "turl" "token" [] "h" "r" "rs" "rn" 1 "cu" "crs" "crn" "br" "cd" 200 none
      = ([], none)) ∧
    TriggerEffect.fetchConfig ("r" ++ "/contents/.gitlab-ci.yml?ref=" ++ "h")
      ∉ (trigger_pipeline (fun _ => "payload") ⟨fun _ _ => "digest"⟩ true
        "turl" "token" [] "h" "r" "rs" "rn" 1 "cu" "crs" "crn" "br" "cd" 200 none).1 := by
  constructor
  · rfl
  · intro h
    simp [trigger_pipeline] at h

/-- C7 amended: with the dry-run flag set, `trigger_pipeline` returns before
doing anything — both the pipeline-definition fetch and the mutating
submission are skipped; without the flag the fetch is the first effect issued;
and the redundancy scan under the flag still examines candidates but issues no
cancel POSTs. -/
theorem C7_sterile_behavior :
    (∀ (dumps : PipelineTriggerData → String) (H : HmacSha512)
       (turl ttok : String) (tsec : Bytes) (hs ru rs rn : String) (iid : Nat)
       (cu crs crn br cdu : String) (st : Nat) (msg : Option String),
      trigger_pipeline dumps H true turl ttok tsec hs ru rs rn iid cu crs crn br
        cdu st msg = ([], none)) ∧
    (∀ (dumps : PipelineTriggerData → String) (H : HmacSha512)
       (turl ttok : String) (tsec : Bytes) (hs ru rs rn : String) (iid : Nat)
       (cu crs crn br cdu : String) (st : Nat) (msg : Option String),
      (trigger_pipeline dumps H false turl ttok tsec hs ru rs rn iid cu crs crn br
        cdu st msg).1.head?
        = some (.fetchConfig (ru ++ "/contents/.gitlab-ci.yml?ref=" ++ hs))) ∧
    (∀ (head_ref clone_url : String) (cancelOk : Nat → Bool)
       (ps : List PipelineEntry),
      (scanCandidates head_ref clone_url true cancelOk ps).1 = []) := by
  refine ⟨fun _ _ _ _ _ _ _ _ _ _ _ _ _ _ _ _ _ => rfl, ?_, ?_⟩
  · intro dumps H turl ttok tsec hs ru rs rn iid cu crs crn br cdu st msg
    by_cases h422 : (st == 422) = true
    · simp [trigger_pipeline, h422]
    · by_cases h4xx : 400 ≤ st
      · simp [trigger_pipeline, h422, h4xx]
      · simp [trigger_pipeline, h422, h4xx]
  · intro head_ref clone_url cancelOk ps
    induction ps with
    | nil => rfl
    | cons p ps ih =>
      simp only [scanCandidates]
      cases dictGet p.vars "HEAD_REF" with
      | none => rfl
      | some hr =>
        by_cases h1 : (hr == head_ref) = true
        · simp only [h1, if_true]
          cases dictGet p.vars "CLONE_URL" with
          | none => rfl
          | some cu =>
            by_cases h2 : (cu == clone_url) = true
            · simpa [h1, h2] using ih
            · simp only [h2, if_false]
              simpa using ih
        · simp only [h1, if_false]
          simpa using ih

/-- C1: when the BRIDGE_PAYLOAD/TRIGGER_SIGNATURE pair recovered from the
pipeline variables does not verify under the configured secret, `on_job_hook`
raises `SignatureMismatchError` and no check-run status is posted: the
handler's effect list is empty, so the status-reporting step is never reached
under an unverified identity. -/
theorem C1_signature_mismatch_aborts
    (H : HmacSha512) (fill : String → String) (jsonLoads : String → BridgeDict)
    (trigger_secret : Bytes) (api_url : String) (sterile : Bool)
    (shouldIgnore : String → Bool) (enableTrig : Bool) (triggerOn : List String)
    (event : HookEvent) (pipeline : Pipeline) (vars : List (String × String))
    (project : Project) (job : Job) (log : String) (bp sg : String)
    (hkind : event.object_kind = "build")
    (hig : shouldIgnore job.name = false)
    (hbp : dictGet vars "BRIDGE_PAYLOAD" = some bp)
    (hsg : dictGet vars "TRIGGER_SIGNATURE" = some sg)
    (hver : Signature.verify H { secret := trigger_secret } (.str bp) sg = false) :
    (on_job_hook H fill jsonLoads trigger_secret api_url sterile shouldIgnore
        enableTrig triggerOn event pipeline vars project job log
      = ([], some (.signatureMismatch "Signature mismatch"))) ∧
    ∀ (url : String) (p : CheckRunPayload),
      Effect.postCheckRun url p ∉ (on_job_hook H fill jsonLoads trigger_secret
        api_url sterile shouldIgnore enableTrig triggerOn event pipeline vars
        project job log).1 := by
  have hmain : on_job_hook H fill jsonLoads trigger_secret api_url sterile
      shouldIgnore enableTrig triggerOn event pipeline vars project job log
      = ([], some (.signatureMismatch "Signature mismatch")) := by
    simp [on_job_hook, hkind, hig, hbp, hsg, hver]
  refine ⟨hmain, ?_⟩
  intro url p
  rw [hmain]
  simp

/-- Witness for C1: a concrete event whose trigger signature does not verify. -/
theorem C1_signature_mismatch_aborts_witness :
    on_job_hook ⟨fun _ _ => "aa"⟩ (fun s => s) (fun _ => ⟨some 1, "r", "h", "rs"⟩)
        [] "api" false (fun _ => false) false []
        ⟨"build", 1, 2, 3⟩ ⟨1, 1, "pw", none⟩
        [("BRIDGE_PAYLOAD", "payload"), ("TRIGGER_SIGNATURE", "bb")]
        ⟨1, "ns"⟩ ⟨"success", false, "job", 4, "jw", "c", none, none⟩ ""
      = ([], some (.signatureMismatch "Signature mismatch")) :=
  (C1_signature_mismatch_aborts ⟨fun _ _ => "aa"⟩ (fun s => s)
    (fun _ => ⟨some 1, "r", "h", "rs"⟩) [] "api" false (fun _ => false) false []
    ⟨"build", 1, 2, 3⟩ ⟨1, 1, "pw", none⟩
    [("BRIDGE_PAYLOAD", "payload"), ("TRIGGER_SIGNATURE", "bb")]
    ⟨1, "ns"⟩ ⟨"success", false, "job", 4, "jw", "c", none, none⟩ ""
    "payload" "bb" rfl rfl (by decide) (by decide) (by decide)).1

/-- C9: decoding a bridge payload whose dict omits the optional fields
head_ref, clone_repo_slug and clone_repo_name succeeds (given the required
clone_url and head_sha are present) and yields the empty string for each
missing field. -/
theorem C9_optional_fields_default
    (d : List (String × String)) (cu hs : String)
    (hcu : dictGet d "clone_url" = some cu)
    (hhs : dictGet d "head_sha" = some hs)
    (h1 : dictGet d "head_ref" = none)
    (h2 : dictGet d "clone_repo_slug" = none)
    (h3 : dictGet d "clone_repo_name" = none) :
    decode_bridge_payload d = .ok ⟨cu, hs, "", "", ""⟩ := by
  simp [decode_bridge_payload, hcu, hhs, h1, h2, h3]

/-- Witness for C9: a two-field payload dict from an earlier protocol version. -/
theorem C9_optional_fields_default_witness :
    decode_bridge_payload [("clone_url", "u"), ("head_sha", "s")]
      = .ok ⟨"u", "s", "", "", ""⟩ :=
  C9_optional_fields_default [("clone_url", "u"), ("head_sha", "s")] "u" "s"
    (by decide) (by decide) (by decide) (by decide) (by decide)

end CiRelay
